import Mathlib

/-!
Verification of the slide layout and rendering engine of the carouselai
repository, against the components `TwitterSlide.tsx` (feed-text template),
`LessonSlide.tsx` (lesson template), the `StorytellerSlide` component
(cinematic-image template) and the shared type definitions.

Embedding conventions: JavaScript strings are lists of characters,
JavaScript numbers are rationals, optional (possibly-`undefined`) values are
`Option`, and the rendered DOM of one slide is an explicit list of layers,
each annotated with its CSS z-index and its DOM order, so that paint order
is the lexicographic order on the pair (z, seq).
-/

set_option maxHeartbeats 1000000

namespace Carousel

/-- JavaScript strings are modelled as lists of characters. -/
abbrev Str : Type := List Char

/-- Coerce a Lean string literal into the model type. -/
def str (s : String) : Str := s.data

/-- Whitespace predicate backing the model of String.prototype.trim. -/
def isWs (c : Char) : Bool := c = ' ' || c = '\t' || c = '\r' || c = '\n'

/-- Model of line.trim(): strip whitespace from both ends. -/
def trimStr (s : Str) : Str := ((s.dropWhile isWs).reverse.dropWhile isWs).reverse

/-- Model of content.split(newline): decompose a string into its lines.
The result is always non-empty and its elements contain no newline. -/
def splitLines : Str → List Str
  | [] => [[]]
  | c :: rest =>
    if c = '\n' then [] :: splitLines rest
    else
      match splitLines rest with
      | [] => [[c]]
      | h :: t => (c :: h) :: t

/-- Model of lines.join(newline). -/
def joinLines : List Str → Str
  | [] => []
  | [l] => l
  | l :: l2 :: ls => l ++ '\n' :: joinLines (l2 :: ls)

/-! ## Inline markup parser

The source splits a line with the regex
(two-star bold | one-star italic | tilde strike | underscore highlight),
each with a non-greedy middle, keeping the captured tokens in the part
list, and then re-classifies every part by its startsWith/endsWith
delimiters.  `findClose` realises the non-greedy middle (the regex dot
does not cross a newline), `tryAny` the ordered alternation, and
`splitParts` the semantics of String.prototype.split with one capturing
group, including the empty segments JavaScript inserts between adjacent
matches. -/

/-- Non-greedy search for a closing delimiter: the shortest decomposition
s = middle ++ close ++ rest whose middle contains no newline. -/
def findClose (close : Str) : Str → Option (Str × Str)
  | [] => none
  | c :: rest =>
    if close.isPrefixOf (c :: rest) then some ([], (c :: rest).drop close.length)
    else if c = '\n' then none
    else (findClose close rest).map (fun p => (c :: p.1, p.2))

/-- Match one delimited token at the start of s, returning the full
matched token and the remaining input. -/
def tryToken (openD closeD : Str) (s : Str) : Option (Str × Str) :=
  if openD.isPrefixOf s then
    (findClose closeD (s.drop openD.length)).map
      (fun p => (openD ++ p.1 ++ closeD, p.2))
  else none

/-- Try the four token alternatives in the order of the source regex. -/
def tryAny (s : Str) : Option (Str × Str) :=
  match tryToken (str "**") (str "**") s with
  | some r => some r
  | none =>
    match tryToken (str "*") (str "*") s with
    | some r => some r
    | none =>
      match tryToken (str "~~") (str "~~") s with
      | some r => some r
      | none => tryToken (str "__") (str "__") s

theorem findClose_length_le (close : Str) :
    ∀ s m r : Str, findClose close s = some (m, r) → r.length ≤ s.length := by
  intro s
  induction s with
  | nil => intro m r h; simp [findClose] at h
  | cons c rest ih =>
    intro m r h
    simp only [findClose] at h
    split at h
    · simp only [Option.some.injEq, Prod.mk.injEq] at h
      obtain ⟨_, hr⟩ := h
      subst hr
      simp [List.length_drop]
    · split at h
      · simp at h
      · simp only [Option.map_eq_some'] at h
        obtain ⟨⟨m0, r0⟩, hfc, hpair⟩ := h
        simp only [Prod.mk.injEq] at hpair
        obtain ⟨_, hr⟩ := hpair
        subst hr
        have := ih m0 r0 hfc
        simp only [List.length_cons]
        omega

theorem tryToken_length_lt (openD closeD s t r : Str)
    (hopen : openD ≠ []) (h : tryToken openD closeD s = some (t, r)) :
    r.length < s.length := by
  simp only [tryToken] at h
  split at h
  · rename_i hpre
    simp only [Option.map_eq_some'] at h
    obtain ⟨⟨m0, r0⟩, hfc, hpair⟩ := h
    simp only [Prod.mk.injEq] at hpair
    obtain ⟨_, hr⟩ := hpair
    subst hr
    have hle : r0.length ≤ (s.drop openD.length).length :=
      findClose_length_le closeD _ _ _ hfc
    have hps : openD <+: s := by
      simpa using List.isPrefixOf_iff_prefix.mp hpre
    have hlen : openD.length ≤ s.length := hps.length_le
    have hpos : 0 < openD.length := List.length_pos.mpr hopen
    simp only [List.length_drop] at hle
    omega
  · simp at h

theorem tryAny_length_lt (s t r : Str) (h : tryAny s = some (t, r)) :
    r.length < s.length := by
  simp only [tryAny] at h
  split at h
  · rename_i r1 h1
    cases h
    exact tryToken_length_lt _ _ _ _ _ (by decide) h1
  · split at h
    · rename_i r1 h1
      cases h
      exact tryToken_length_lt _ _ _ _ _ (by decide) h1
    · split at h
      · rename_i r1 h1
        cases h
        exact tryToken_length_lt _ _ _ _ _ (by decide) h1
      · exact tryToken_length_lt _ _ _ _ _ (by decide) h

/-- Model of text.split(regex) with one capturing group: the alternating
list of literal segments and matched tokens, exactly as JavaScript
produces it (empty segments included).  Structural recursion on a fuel
counter so the kernel can evaluate it; every step consumes at least one
character (tryAny_length_lt), so with fuel length-plus-one the
out-of-fuel branch is never reached. -/
def splitPartsGo (fuel : Nat) (acc : Str) (s : Str) : List Str :=
  match fuel with
  | 0 => [acc ++ s]
  | fuel2 + 1 =>
    match s with
    | [] => [acc]
    | c :: cs =>
      match tryAny (c :: cs) with
      | some (tok, rest) => acc :: tok :: splitPartsGo fuel2 [] rest
      | none => splitPartsGo fuel2 (acc ++ [c]) cs

/-- The part list of one line: scan with sufficient fuel. -/
def splitParts (text : Str) : List Str := splitPartsGo (text.length + 1) [] text

/-- One styled run of the inline parser's output.  The double-underscore
token is rendered as an underline by the feed-text template and as an
accent highlight by the other two; the split and classification logic is
identical, so one constructor stands for both. -/
inductive Run
  | strong (s : Str)
  | em (s : Str)
  | strike (s : Str)
  | highlight (s : Str)
  | lit (s : Str)
deriving DecidableEq

/-- Model of part.slice(n, -n). -/
def sliceEnds (n : Nat) (s : Str) : Str := (s.take (s.length - n)).drop n

/-- Classify one split part by its delimiters, exactly as the source
re-tests startsWith and endsWith on each part. -/
def mapPart (part : Str) : Run :=
  if (str "**").isPrefixOf part && (str "**").isSuffixOf part then .strong (sliceEnds 2 part)
  else if (str "*").isPrefixOf part && (str "*").isSuffixOf part then .em (sliceEnds 1 part)
  else if (str "~~").isPrefixOf part && (str "~~").isSuffixOf part then .strike (sliceEnds 2 part)
  else if (str "__").isPrefixOf part && (str "__").isSuffixOf part then .highlight (sliceEnds 2 part)
  else .lit part

/-- Model of parseInline (identical in all three slide components):
split on the token regex, then map every part to a styled run. -/
def parseInline (text : Str) : List Run := (splitParts text).map mapPart

/-- A run that contributes no rendered output: an empty literal part
(JavaScript's split inserts these around matches; React renders them as
nothing). -/
def runVisible : Run → Bool
  | .lit [] => false
  | _ => true

/-! ## Block markdown resolver and title/body splitter -/

/-- One block node of renderMarkdown's per-line classification. -/
inductive Block
  | h1 (runs : List Run)
  | h2 (runs : List Run)
  | bullet (runs : List Run)
  | numbered (numStr : Str) (runs : List Run)
  | spacer
  | para (runs : List Run)
deriving DecidableEq

/-- Model of the numbered-item regex test on the trimmed line: a
non-empty digit run followed by a period and a space. -/
def testNumbered (t : Str) : Bool :=
  match t.takeWhile Char.isDigit, t.drop (t.takeWhile Char.isDigit).length with
  | _ :: _, '.' :: ' ' :: _ => true
  | _, _ => false

/-- Model of one iteration of renderMarkdown's lines.map: heading checks
run on the raw line, bullet/numbered/blank checks on the trimmed line;
the bullet branch slices the raw line, the numbered branch the trimmed
line; this classification is identical in the three slide components. -/
def classifyLine (line : Str) : Block :=
  let trimmed := trimStr line
  if (str "# ").isPrefixOf line then .h1 (parseInline (line.drop 2))
  else if (str "## ").isPrefixOf line then .h2 (parseInline (line.drop 3))
  else if (str "- ").isPrefixOf trimmed then .bullet (parseInline (line.drop 2))
  else if testNumbered trimmed then
    .numbered (trimmed.takeWhile Char.isDigit)
      (parseInline (trimmed.drop ((trimmed.takeWhile Char.isDigit).length + 2)))
  else if trimmed.isEmpty then .spacer
  else .para (parseInline line)

/-- Model of renderMarkdown's block structure: split into lines and
classify each one. -/
def renderMarkdown (text : Str) : List Block := (splitLines text).map classifyLine

/-- Result record of splitContentByHeaders. -/
structure TitleBody where
  titleLines : Str
  bodyLines : Str
deriving DecidableEq

/-- A line the splitter keeps in the title prefix: trimmed heading-1,
trimmed heading-2, or blank. -/
def isTitleLine (line : Str) : Bool :=
  let trimmed := trimStr line
  (str "# ").isPrefixOf trimmed || (str "## ").isPrefixOf trimmed || trimmed.isEmpty

/-- Model of splitContentByHeaders (identical in TwitterSlide and
LessonSlide): the maximal prefix of title lines, then everything from the
first other line onward, both rejoined with newlines. -/
def splitContentByHeaders (content : Str) : TitleBody :=
  let lines := splitLines content
  { titleLines := joinLines (lines.takeWhile isTitleLine)
    bodyLines := joinLines (lines.dropWhile isTitleLine) }

/-! ## Data model (types.ts) -/

/-- Color theme. -/
inductive Theme
  | LIGHT
  | DARK
deriving DecidableEq

/-- Horizontal text alignment. -/
inductive TextAlignment
  | left
  | center
  | right
deriving DecidableEq

/-- Font family choice.  In the source these are non-empty string enum
values, hence always truthy. -/
inductive FontStyle
  | MODERN
  | SERIF
  | TECH
deriving DecidableEq

/-- Slide role in the carousel flow. -/
inductive SlideType
  | COVER
  | CONTENT
  | CTA
deriving DecidableEq

/-- Global layout settings.  All numeric fields are required in types.ts;
textAlignment is modelled as optional because the components' own default
settings object omits it and every use re-defaults it to left. -/
structure LayoutSettings where
  contentPadding : ℚ
  imageCanvasOffset : ℚ
  imageMargin : ℚ
  textLineHeight : ℚ
  paragraphGap : ℚ
  textAlignment : Option TextAlignment := none
deriving DecidableEq

/-- The slide data model: every optional field is a per-slide override or
optional content reference, exactly as in types.ts. -/
structure Slide where
  type : SlideType
  content : Str
  imageUrl : Option Str := none
  showImage : Bool
  imageScale : Option ℚ := none
  overlayImage : Option Bool := none
  imageOffsetY : Option ℚ := none
  gradientHeight : Option ℚ := none
  fontStyle : Option FontStyle := none
  fontScale : Option ℚ := none
  contentLayout : Option Str := none
  showBackgroundImage : Option Bool := none
  backgroundImageUrl : Option Str := none
  backgroundOverlayColor : Option Str := none
  backgroundOverlayOpacity : Option ℚ := none
  contentPadding : Option ℚ := none
  imageCanvasOffset : Option ℚ := none
  imageMargin : Option ℚ := none
  textLineHeight : Option ℚ := none
  paragraphGap : Option ℚ := none
  backgroundTextColor : Option Str := none
  imageTextSpacing : Option ℚ := none
  textAlignment : Option TextAlignment := none
deriving DecidableEq

/-- Truthiness of an optional string (JavaScript: undefined and the empty
string are falsy). -/
def truthyS : Option Str → Bool
  | some s => !s.isEmpty
  | none => false

/-- Truthiness of an optional boolean. -/
def truthyB : Option Bool → Bool
  | some b => b
  | none => false

/-- JavaScript a-or-b on an optional number: 0 is falsy, so a present 0
still falls through to the default. -/
def jsOrQ (o : Option ℚ) (d : ℚ) : ℚ :=
  match o with
  | some v => if v = 0 then d else v
  | none => d

/-- JavaScript a-or-b on an optional string: the empty string is falsy. -/
def jsOrS (o : Option Str) (d : Str) : Str :=
  match o with
  | some s => if s.isEmpty then d else s
  | none => d

/-- Model of getFontFamily (identical in the three components). -/
def getFontFamily : FontStyle → Str
  | .SERIF => str "\"Playfair Display\", Georgia, serif"
  | .TECH => str "\"JetBrains Mono\", \"Fira Code\", monospace"
  | .MODERN => str "system-ui, -apple-system, BlinkMacSystemFont, \"Segoe UI\", Roboto, sans-serif"

/-! ## Layout settings resolver

Each effective value follows the source line
slide.field double-question layoutSettings questionmark-dot field
double-question default, i.e. per-slide override, else global setting,
else hard default.  Font style uses JavaScript or (enum values are never
falsy), font scale an explicit undefined check, and image scale
JavaScript or with the template-dependent default. -/

/-- Effective content padding: per-slide, else global, else 64. -/
def effContentPadding (s : Slide) (ls : Option LayoutSettings) : ℚ :=
  match s.contentPadding with
  | some v => v
  | none =>
    match ls with
    | some l => l.contentPadding
    | none => 64

/-- Effective image canvas offset: per-slide, else global, else 0. -/
def effImageCanvasOffset (s : Slide) (ls : Option LayoutSettings) : ℚ :=
  match s.imageCanvasOffset with
  | some v => v
  | none =>
    match ls with
    | some l => l.imageCanvasOffset
    | none => 0

/-- Effective image margin: per-slide, else global, else 0. -/
def effImageMargin (s : Slide) (ls : Option LayoutSettings) : ℚ :=
  match s.imageMargin with
  | some v => v
  | none =>
    match ls with
    | some l => l.imageMargin
    | none => 0

/-- Effective text line height: per-slide, else global, else 1.5. -/
def effLineHeight (s : Slide) (ls : Option LayoutSettings) : ℚ :=
  match s.textLineHeight with
  | some v => v
  | none =>
    match ls with
    | some l => l.textLineHeight
    | none => 1.5

/-- Effective paragraph gap: per-slide, else global, else 1. -/
def effParagraphGap (s : Slide) (ls : Option LayoutSettings) : ℚ :=
  match s.paragraphGap with
  | some v => v
  | none =>
    match ls with
    | some l => l.paragraphGap
    | none => 1

/-- Effective text alignment: per-slide, else global, else left. -/
def effTextAlignment (s : Slide) (ls : Option LayoutSettings) : TextAlignment :=
  match s.textAlignment with
  | some a => a
  | none =>
    match ls with
    | some l =>
      match l.textAlignment with
      | some a => a
      | none => .left
    | none => .left

/-- Effective font style: per-slide (JavaScript or; enum values are
always truthy), else the global prop. -/
def effFontStyle (s : Slide) (global : FontStyle) : FontStyle :=
  s.fontStyle.getD global

/-- Effective font scale: per-slide when not undefined, else global. -/
def effFontScale (s : Slide) (global : ℚ) : ℚ :=
  s.fontScale.getD global

/-- Effective image scale in the feed-text template: slide.imageScale
JavaScript-or 50. -/
def effImageScaleTwitter (s : Slide) : ℚ := jsOrQ s.imageScale 50

/-- Effective image scale in the cinematic-image template:
slide.imageScale JavaScript-or 45. -/
def effImageScaleStoryteller (s : Slide) : ℚ := jsOrQ s.imageScale 45

/-- Effective image scale in the lesson template: slide.imageScale
JavaScript-or 50. -/
def effImageScaleLesson (s : Slide) : ℚ := jsOrQ s.imageScale 50

/-- Effective vertical crop position: 50 when undefined. -/
def effImageOffsetY (s : Slide) : ℚ := s.imageOffsetY.getD 50

/-- Effective gradient height: 60 when undefined. -/
def effGradientHeight (s : Slide) : ℚ := s.gradientHeight.getD 60

/-- Effective image-to-text spacing: 16 when undefined. -/
def effImageTextSpacing (s : Slide) : ℚ := s.imageTextSpacing.getD 16

/-- Effective background overlay opacity (0-100): 50 when undefined. -/
def effBgOverlayOpacity (s : Slide) : ℚ := s.backgroundOverlayOpacity.getD 50

/-- Background overlay color: per-slide, else black on dark / white on
light (JavaScript or, so an empty string also falls through). -/
def bgOverlayColorOf (s : Slide) (theme : Theme) : Str :=
  jsOrS s.backgroundOverlayColor
    (match theme with
     | .DARK => str "#000000"
     | .LIGHT => str "#FFFFFF")

/-! ## Visual tree model

Each template's render output is flattened, in DOM order, into a list of
layers.  A layer carries the CSS z-index of the stacking layer it paints
in (children of a positioned z-indexed container inherit that container's
index) and its DOM sequence number; paint order is lexicographic on
(z, seq).  Geometry and style values are recorded on the layer fields. -/

/-- Kinds of layers the templates emit. -/
inductive LayerKind
  | canvas
  | background
  | bgOverlay
  | contentFrame
  | header
  | illustration
  | gradient
  | text
  | footer
deriving DecidableEq

/-- What a layer draws. -/
inductive NodeContent
  | image (url : Str)
  | placeholderGenerating
  | textContent (s : Str)
  | colorFill (color : Str)
  | gradientFade
  | frame
  | profileHeader
  | footerInfo (pagination : Bool)
deriving DecidableEq

/-- One layer of the flattened visual tree. -/
structure Layer where
  kind : LayerKind
  z : Nat
  seq : Nat
  content : NodeContent
  heightPct : Option ℚ := none
  offsetPx : Option ℚ := none
  topPct : Option ℚ := none
  padPx : Option ℚ := none
  padTopPct : Option ℚ := none
  padTopPx : Option ℚ := none
  marginBottomPx : Option ℚ := none
  opacity : Option ℚ := none
  objPosY : Option ℚ := none
  fontFamily : Option Str := none
  fontScaleV : Option ℚ := none
  lineHeightV : Option ℚ := none
  paragraphGapV : Option ℚ := none
  align : Option TextAlignment := none
  transition : Bool := false
deriving DecidableEq

/-- Text layer skeleton shared by the templates: carries the resolved
typography settings fed into renderMarkdown. -/
def textLayerBase (z seq : Nat) (content : Str) (s : Slide)
    (ls : Option LayoutSettings) (gSc : ℚ) : Layer :=
  { kind := .text, z := z, seq := seq
    content := .textContent content
    fontScaleV := some (effFontScale s gSc)
    lineHeightV := some (effLineHeight s ls)
    paragraphGapV := some (effParagraphGap s ls)
    align := some (effTextAlignment s ls) }

/-- Whether the full-bleed background image layer is shown (identical
condition in the three components). -/
def showBackgroundOf (s : Slide) : Bool :=
  truthyB s.showBackgroundImage && truthyS s.backgroundImageUrl

/-- The background image plus its color overlay, as emitted by all three
templates when the background is shown. -/
def backgroundLayers (s : Slide) (theme : Theme) : List Layer :=
  [{ kind := .background, z := 0, seq := 1
     content := .image (s.backgroundImageUrl.getD []) },
   { kind := .bgOverlay, z := 1, seq := 2
     content := .colorFill (bgOverlayColorOf s theme)
     opacity := some (effBgOverlayOpacity s / 100) }]

/-! ## Feed-text template (TwitterSlide) -/

/-- The source's contentLayout constant: slide.contentLayout or default. -/
def twitterContentLayout (s : Slide) : Str := jsOrS s.contentLayout (str "default")

/-- The source's titleLines/bodyLines destructuring: split only for the
image-after-title layout, empty strings otherwise. -/
def twitterTitleBody (s : Slide) : TitleBody :=
  if twitterContentLayout s = str "image-after-title" then splitContentByHeaders s.content
  else { titleLines := [], bodyLines := [] }

/-- The source's textHeightPercent: the text region's share of the
height once the image takes imageScale percent. -/
def twitterTextHeightPercent (s : Slide) : ℚ :=
  if s.showImage then 100 - effImageScaleTwitter s else 100

/-- Model of TwitterSlide's renderImage: nothing when showImage is off;
otherwise an illustration block of imageScale percent height (adjusted by
the canvas offset), holding the image when the URL is truthy and the
generating placeholder otherwise.  The container's transition classes are
unconditional in this template. -/
def twitterRenderImage (s : Slide) (ls : Option LayoutSettings) (seq : Nat) : List Layer :=
  if !s.showImage then []
  else
    [{ kind := .illustration, z := 10, seq := seq
       content :=
         if truthyS s.imageUrl then .image (s.imageUrl.getD [])
         else .placeholderGenerating
       heightPct := some (effImageScaleTwitter s)
       offsetPx :=
         if effImageCanvasOffset s ls ≠ 0 then some (effImageCanvasOffset s ls) else none
       marginBottomPx :=
         if effImageCanvasOffset s ls > 0 then some (-(effImageCanvasOffset s ls)) else none
       padPx := if effImageMargin s ls > 0 then some (effImageMargin s ls) else none
       objPosY := some (effImageOffsetY s)
       transition := true }]

/-- Model of TwitterSlide's renderMainContent: the switch on
contentLayout, with the default arm shared by the default value and any
unrecognized value. -/
def twitterMainContent (s : Slide) (ls : Option LayoutSettings) (gSc : ℚ) : List Layer :=
  if twitterContentLayout s = str "image-first" then
    twitterRenderImage s ls 5 ++
      [{ textLayerBase 10 6 s.content s ls gSc with
           heightPct := some (if s.showImage then twitterTextHeightPercent s else 100)
           transition := true }]
  else if twitterContentLayout s = str "image-after-title" then
    (if (trimStr (twitterTitleBody s).titleLines).isEmpty then []
     else [textLayerBase 10 5 (twitterTitleBody s).titleLines s ls gSc]) ++
    twitterRenderImage s ls 6 ++
    (if (trimStr (twitterTitleBody s).bodyLines).isEmpty then []
     else [{ textLayerBase 10 7 (twitterTitleBody s).bodyLines s ls gSc with
               padTopPx := some (effImageTextSpacing s) }])
  else
    [{ textLayerBase 10 5 s.content s ls gSc with
         heightPct := some (twitterTextHeightPercent s)
         transition := true }] ++
    twitterRenderImage s ls 6

/-- Model of TwitterSlide: canvas, optional full-bleed background plus
overlay (z 0 and 1), the padded content frame (z 10) holding the profile
header, the main content in the order selected by contentLayout, and the
pagination footer last. -/
def twitterLayers (s : Slide) (ls : Option LayoutSettings) (gFS : FontStyle)
    (gSc : ℚ) (showSlideNumbers forExport : Bool) (theme : Theme) : List Layer :=
  [{ kind := .canvas, z := 0, seq := 0
     content := .colorFill (match theme with | .DARK => str "#000000" | .LIGHT => str "#FFFFFF")
     fontFamily := some (getFontFamily (effFontStyle s gFS))
     transition := !forExport }] ++
  (if showBackgroundOf s then backgroundLayers s theme else []) ++
  [{ kind := .contentFrame, z := 10, seq := 3, content := .frame
     padPx := some (effContentPadding s ls) },
   { kind := .header, z := 10, seq := 4, content := .profileHeader }] ++
  twitterMainContent s ls gSc ++
  (if showSlideNumbers then
     [{ kind := .footer, z := 10, seq := 8, content := .footerInfo true }]
   else [])

/-! ## Cinematic-image template (StorytellerSlide) -/

/-- The source's isOverlay: showImage and overlayImage not strictly
false. -/
def storytellerIsOverlay (s : Slide) : Bool :=
  s.showImage && !(s.overlayImage == some false)

/-- The source's showSplit: showImage without overlay mode. -/
def storytellerShowSplit (s : Slide) : Bool :=
  s.showImage && !(storytellerIsOverlay s)

/-- The source's overlayTextPaddingTop: text starts near the gradient
boundary, pushed up twelve points, clamped at zero. -/
def overlayTextPaddingTop (s : Slide) : ℚ :=
  max 0 (effImageScaleStoryteller s - 12)

/-- Model of StorytellerSlide: canvas, optional background plus overlay,
the overlay-mode illustration with its gradient fade (z 2) or the
split-mode illustration (z 2), the text block (z 10), and the always
present centered footer (z 20). -/
def storytellerLayers (s : Slide) (ls : Option LayoutSettings) (gFS : FontStyle)
    (gSc : ℚ) (showSlideNumbers forExport : Bool) (theme : Theme) : List Layer :=
  [{ kind := .canvas, z := 0, seq := 0
     content := .colorFill (match theme with | .DARK => str "#0a0a0a" | .LIGHT => str "#ffffff")
     fontFamily := some (getFontFamily (effFontStyle s gFS))
     transition := !forExport }] ++
  (if showBackgroundOf s then backgroundLayers s theme else []) ++
  (if storytellerIsOverlay s && truthyS s.imageUrl then
     [{ kind := .illustration, z := 2, seq := 3
        content := .image (s.imageUrl.getD [])
        heightPct := some (effImageScaleStoryteller s)
        objPosY := some (effImageOffsetY s)
        transition := !forExport },
      { kind := .gradient, z := 2, seq := 4, content := .gradientFade
        heightPct := some (effGradientHeight s) }]
   else []) ++
  (if storytellerShowSplit s && truthyS s.imageUrl then
     [{ kind := .illustration, z := 2, seq := 5
        content := .image (s.imageUrl.getD [])
        heightPct := some (effImageScaleStoryteller s)
        objPosY := some (effImageOffsetY s)
        transition := !forExport }]
   else []) ++
  [{ textLayerBase 10 6 s.content s ls gSc with
       heightPct :=
         some (if storytellerShowSplit s then 100 - effImageScaleStoryteller s else 100)
       padPx := some (effContentPadding s ls)
       padTopPct :=
         if storytellerIsOverlay s && truthyS s.imageUrl then some (overlayTextPaddingTop s)
         else none
       padTopPx :=
         if storytellerIsOverlay s && truthyS s.imageUrl then none
         else if storytellerShowSplit s then some 48
         else some 0 }] ++
  [{ kind := .footer, z := 20, seq := 7, content := .footerInfo showSlideNumbers }]

/-! ## Lesson template (LessonSlide) -/

/-- The source's isCover: the slide role is the cover role. -/
def lessonIsCover (s : Slide) : Bool := s.type == SlideType.COVER

/-- The source's showCoverImage: cover role with a shown background. -/
def lessonShowCoverImage (s : Slide) : Bool := lessonIsCover s && showBackgroundOf s

/-- The source's isOverlayMode: overlayImage not strictly false. -/
def lessonIsOverlayMode (s : Slide) : Bool := !(s.overlayImage == some false)

/-- The source's gradientOpacity: overlay opacity over one hundred when
defined, else one. -/
def lessonGradientOpacity (s : Slide) : ℚ :=
  match s.backgroundOverlayOpacity with
  | some v => v / 100
  | none => 1

/-- The source's titleLines/bodyLines destructuring: split only for
non-cover slides showing an image. -/
def lessonTitleBody (s : Slide) : TitleBody :=
  if !(lessonIsCover s) && s.showImage then splitContentByHeaders s.content
  else { titleLines := [], bodyLines := [] }

/-- Model of LessonSlide: cover slides render the background image as the
cover illustration in overlay mode (z 2 with a gradient) or split mode
(in-flow), content slides with an image render title, illustration or
placeholder, and body inside the padded content frame (z 10); the
centered footer (z 20) is always last. -/
def lessonLayers (s : Slide) (ls : Option LayoutSettings) (gFS : FontStyle)
    (gSc : ℚ) (showSlideNumbers forExport : Bool) (theme : Theme) : List Layer :=
  [{ kind := .canvas, z := 0, seq := 0
     content := .colorFill (match theme with | .DARK => str "#000000" | .LIGHT => str "#FFFFFF")
     fontFamily := some (getFontFamily (effFontStyle s gFS))
     transition := !forExport }] ++
  (if !(lessonIsCover s) && showBackgroundOf s then backgroundLayers s theme else []) ++
  (if lessonIsCover s then
     if lessonIsOverlayMode s then
       (if lessonShowCoverImage s then
          [{ kind := .illustration, z := 2, seq := 3
             content := .image (s.backgroundImageUrl.getD [])
             objPosY := some (effImageOffsetY s)
             transition := !forExport },
           { kind := .gradient, z := 2, seq := 4, content := .gradientFade
             topPct := some (effImageScaleLesson s)
             heightPct := some (effGradientHeight s)
             opacity := some (lessonGradientOpacity s) }]
        else []) ++
       [{ textLayerBase 10 5 s.content s ls gSc with
            padPx := some (effContentPadding s ls)
            topPct := some (effImageOffsetY s) }]
     else
       (if lessonShowCoverImage s then
          [{ kind := .illustration, z := 0, seq := 3
             content := .image (s.backgroundImageUrl.getD [])
             heightPct := some (effImageScaleLesson s)
             objPosY := some (effImageOffsetY s)
             transition := !forExport }]
        else []) ++
       [{ textLayerBase 0 4 s.content s ls gSc with
            padPx := some (effContentPadding s ls)
            padTopPx := some (effContentPadding s ls / 2) }]
   else if s.showImage then
     [{ kind := .contentFrame, z := 10, seq := 3, content := .frame
        padPx := some (effContentPadding s ls) }] ++
     (if (trimStr (lessonTitleBody s).titleLines).isEmpty then []
      else [textLayerBase 10 4 (lessonTitleBody s).titleLines s ls gSc]) ++
     [{ kind := .illustration, z := 10, seq := 5
        content :=
          if truthyS s.imageUrl then .image (s.imageUrl.getD [])
          else .placeholderGenerating
        heightPct := some (effImageScaleLesson s)
        objPosY := some (effImageOffsetY s)
        transition := !forExport }] ++
     (if (trimStr (lessonTitleBody s).bodyLines).isEmpty then []
      else [{ textLayerBase 10 6 (lessonTitleBody s).bodyLines s ls gSc with
                padTopPx := some (effImageTextSpacing s) }])
   else
     [{ kind := .contentFrame, z := 10, seq := 3, content := .frame
        padPx := some (effContentPadding s ls) },
      textLayerBase 10 4 s.content s ls gSc]) ++
  [{ kind := .footer, z := 20, seq := 9, content := .footerInfo showSlideNumbers }]

/-! ## Z-order machinery -/

/-- Paint order: lexicographic on (z-index, DOM sequence). -/
def rankLt (a b : Layer) : Bool :=
  a.z < b.z || (a.z == b.z && a.seq < b.seq)

/-- Ordering constraints the amended invariant requires: background below
overlay, both below every illustration, text and footer, and the footer
above every other layer. -/
def requiresBelowAmended (k1 k2 : LayerKind) : Bool :=
  (k1 == .background &&
    (k2 == .bgOverlay || k2 == .illustration || k2 == .text || k2 == .footer)) ||
  (k1 == .bgOverlay && (k2 == .illustration || k2 == .text || k2 == .footer)) ||
  (k2 == .footer && !(k1 == .footer))

/-- Ordering constraints of the claim as stated: additionally every
illustration below every text layer. -/
def requiresBelowSpec (k1 k2 : LayerKind) : Bool :=
  requiresBelowAmended k1 k2 || (k1 == .illustration && k2 == .text)

/-- All ordering constraints of req hold between the layers of L. -/
def zOrderOK (req : LayerKind → LayerKind → Bool) (L : List Layer) : Bool :=
  L.all fun a => L.all fun b => !req a.kind b.kind || rankLt a b

/-! ## Supporting lemmas on the string model -/

theorem splitLines_no_newline {l : Str} (h : '\n' ∉ l) : splitLines l = [l] := by
  induction l with
  | nil => rfl
  | cons c rest ih =>
    have hc : ¬ c = '\n' := fun hcn => h (hcn ▸ List.mem_cons_self c rest)
    have hr : '\n' ∉ rest := fun hm => h (List.mem_cons_of_mem c hm)
    simp only [splitLines, if_neg hc, ih hr]

theorem splitLines_append {l : Str} (s : Str) (h : '\n' ∉ l) :
    splitLines (l ++ '\n' :: s) = l :: splitLines s := by
  induction l with
  | nil => simp [splitLines]
  | cons c rest ih =>
    have hc : ¬ c = '\n' := fun hcn => h (hcn ▸ List.mem_cons_self c rest)
    have hr : '\n' ∉ rest := fun hm => h (List.mem_cons_of_mem c hm)
    show splitLines (c :: (rest ++ '\n' :: s)) = (c :: rest) :: splitLines s
    rw [splitLines, if_neg hc, ih hr]

theorem no_newline_of_mem_splitLines {s l : Str} (h : l ∈ splitLines s) : '\n' ∉ l := by
  induction s generalizing l with
  | nil =>
    simp only [splitLines, List.mem_singleton] at h
    subst h
    simp
  | cons c rest ih =>
    simp only [splitLines] at h
    by_cases hc : c = '\n'
    · rw [if_pos hc] at h
      rcases List.mem_cons.mp h with h1 | h1
      · subst h1; simp
      · exact ih h1
    · rw [if_neg hc] at h
      cases hsp : splitLines rest with
      | nil =>
        rw [hsp] at h
        simp only [List.mem_singleton] at h
        subst h
        exact fun hm => hc (List.mem_singleton.mp hm).symm
      | cons a t =>
        rw [hsp] at h
        rcases List.mem_cons.mp h with h1 | h1
        · subst h1
          intro hm
          rcases List.mem_cons.mp hm with h2 | h2
          · exact hc h2.symm
          · exact ih (hsp ▸ List.mem_cons_self a t) h2
        · exact ih (hsp ▸ List.mem_cons_of_mem a h1)

theorem splitLines_joinLines {ls : List Str} (hne : ls ≠ [])
    (h : ∀ l ∈ ls, '\n' ∉ l) : splitLines (joinLines ls) = ls := by
  induction ls with
  | nil => exact absurd rfl hne
  | cons a t ih =>
    cases t with
    | nil => exact splitLines_no_newline (h a (List.mem_cons_self a []))
    | cons b t2 =>
      have ha : '\n' ∉ a := h a (List.mem_cons_self _ _)
      have ht : ∀ l ∈ b :: t2, '\n' ∉ l := fun l hl => h l (List.mem_cons_of_mem a hl)
      simp only [joinLines, splitLines_append _ ha, ih (by simp) ht]

theorem mem_takeWhile_sat {p : α → Bool} {l : List α} {x : α}
    (h : x ∈ l.takeWhile p) : p x = true := by
  induction l with
  | nil => simp [List.takeWhile] at h
  | cons a t ih =>
    rw [List.takeWhile_cons] at h
    by_cases ha : p a = true
    · rw [if_pos ha] at h
      rcases List.mem_cons.mp h with h1 | h1
      · exact h1 ▸ ha
      · exact ih h1
    · rw [if_neg ha] at h; simp at h

theorem mem_of_mem_takeWhile {p : α → Bool} {l : List α} {x : α}
    (h : x ∈ l.takeWhile p) : x ∈ l := by
  induction l with
  | nil => simp [List.takeWhile] at h
  | cons a t ih =>
    rw [List.takeWhile_cons] at h
    by_cases ha : p a = true
    · rw [if_pos ha] at h
      rcases List.mem_cons.mp h with h1 | h1
      · exact h1 ▸ List.mem_cons_self a t
      · exact List.mem_cons_of_mem a (ih h1)
    · rw [if_neg ha] at h; simp at h

theorem takeWhile_eq_self_of_sat {p : α → Bool} {l : List α}
    (h : ∀ x ∈ l, p x = true) : l.takeWhile p = l := by
  induction l with
  | nil => rfl
  | cons a t ih =>
    rw [List.takeWhile_cons, if_pos (h a (List.mem_cons_self a t)),
      ih fun x hx => h x (List.mem_cons_of_mem a hx)]

theorem dropWhile_eq_nil_of_sat {p : α → Bool} {l : List α}
    (h : ∀ x ∈ l, p x = true) : l.dropWhile p = [] := by
  induction l with
  | nil => rfl
  | cons a t ih =>
    rw [List.dropWhile_cons, if_pos (h a (List.mem_cons_self a t)),
      ih fun x hx => h x (List.mem_cons_of_mem a hx)]

theorem takeWhile_append_sat {p : α → Bool} {ds : List α} {x : α} (t : List α)
    (hall : ∀ c ∈ ds, p c = true) (hx : p x = false) :
    (ds ++ x :: t).takeWhile p = ds := by
  induction ds with
  | nil => simp [List.takeWhile_cons, hx]
  | cons d ds2 ih =>
    rw [List.cons_append, List.takeWhile_cons, if_pos (hall d (List.mem_cons_self _ _)),
      ih fun c hc => hall c (List.mem_cons_of_mem d hc)]

theorem dropWhile_concat_reverse {p : α → Bool} (xs : List α) {c : α}
    (hc : p c = false) : ∃ ys, ((xs ++ [c]).dropWhile p).reverse = c :: ys := by
  induction xs with
  | nil => exact ⟨[], by simp [List.dropWhile_cons, hc]⟩
  | cons x xs2 ih =>
    rw [List.cons_append, List.dropWhile_cons]
    by_cases hx : p x = true
    · rw [if_pos hx]; exact ih
    · rw [if_neg hx]
      exact ⟨xs2.reverse ++ [x], by simp⟩

theorem trimStr_cons_head {c : Char} (t : Str) (hc : isWs c = false) :
    ∃ t2, trimStr (c :: t) = c :: t2 := by
  unfold trimStr
  rw [List.dropWhile_cons, if_neg (by simp [hc])]
  rw [show (c :: t).reverse = t.reverse ++ [c] by simp]
  exact dropWhile_concat_reverse t.reverse hc

/-! ## Claims about the parser, splitter and block resolver -/

/-- C5: the title/body splitter is idempotent: for every content string,
re-splitting the title part returns an empty body. -/
theorem claim5_splitter_idempotent (x : Str) :
    (splitContentByHeaders (splitContentByHeaders x).titleLines).bodyLines = [] := by
  have key : ∀ ts : List Str, (∀ l ∈ ts, isTitleLine l = true) → (∀ l ∈ ts, '\n' ∉ l) →
      (splitContentByHeaders (joinLines ts)).bodyLines = [] := by
    intro ts htitle hnl
    cases ts with
    | nil => rfl
    | cons a t =>
      show (joinLines ((splitLines (joinLines (a :: t))).dropWhile isTitleLine)) = []
      rw [splitLines_joinLines (by simp) hnl,
        dropWhile_eq_nil_of_sat htitle]
      rfl
  exact key ((splitLines x).takeWhile isTitleLine)
    (fun l hl => mem_takeWhile_sat hl)
    (fun l hl => no_newline_of_mem_splitLines (mem_of_mem_takeWhile hl))

/-- C8: parsing a line with one bold and one italic token yields exactly
the runs strong bold, literal and-with-spaces, em italic, in the original
order (plus the empty literal segments JavaScript's split inserts at the
ends, which render as nothing); and a line whose delimiters never close
is passed through as one literal run. -/
theorem claim8_inline_roundtrip :
    parseInline (str "**bold** and *italic*") =
      [.lit [], .strong (str "bold"), .lit (str " and "), .em (str "italic"), .lit []]
    ∧ (parseInline (str "**bold** and *italic*")).filter runVisible =
      [.strong (str "bold"), .lit (str " and "), .em (str "italic")]
    ∧ parseInline (str "a * b ~~ c") = [.lit (str "a * b ~~ c")] := by
  refine ⟨by decide, by decide, by decide⟩

/-- C9: the input of four asterisks is matched by the bold alternative
first and sliced by its two-character delimiters, so it parses to a
single strong run with empty content (the surrounding literal segments
are empty), not to literal asterisk characters. -/
theorem claim9_empty_bold :
    parseInline (str "****") = [.lit [], .strong [], .lit []] := by
  decide

/-- C7: a line whose trimmed form is a digit run followed by a period and
a space resolves to a numbered item whose displayed number is the
user-supplied digit run verbatim, with the remainder inline-parsed. -/
theorem claim7_numbered_verbatim (line ds rest : Str)
    (hne : ds ≠ []) (hdig : ∀ c ∈ ds, c.isDigit = true)
    (htrim : trimStr line = ds ++ '.' :: ' ' :: rest) :
    classifyLine line = .numbered ds (parseInline rest) := by
  obtain ⟨d, ds2, rfl⟩ : ∃ d ds2, ds = d :: ds2 := by
    cases ds with
    | nil => exact absurd rfl hne
    | cons d ds2 => exact ⟨d, ds2, rfl⟩
  have hd : d.isDigit = true := hdig d (List.mem_cons_self _ _)
  -- the raw line cannot carry a heading prefix: its trimmed form would
  -- then start with a hash, not a digit
  have hhash : ∀ u : Str, ¬ (('#' :: u).isPrefixOf line = true) := by
    intro u hpre
    obtain ⟨w, hw⟩ := List.isPrefixOf_iff_prefix.mp hpre
    have hhead : ∃ t2, trimStr line = '#' :: t2 := by
      rw [← hw]
      rw [show '#' :: u ++ w = '#' :: (u ++ w) by simp]
      exact trimStr_cons_head (u ++ w) (by decide)
    obtain ⟨t2, ht2⟩ := hhead
    rw [htrim] at ht2
    simp at ht2
    exact absurd (ht2.1 ▸ hd) (by decide)
  have h1 : (str "# ").isPrefixOf line = false := by
    have := hhash [' ']
    revert this
    cases h : (str "# ").isPrefixOf line
    · intro _; rfl
    · intro hcon; exact absurd h hcon
  have h2 : (str "## ").isPrefixOf line = false := by
    have := hhash ['#', ' ']
    revert this
    cases h : (str "## ").isPrefixOf line
    · intro _; rfl
    · intro hcon; exact absurd h hcon
  have hd2 : ¬ d = '-' := fun h => absurd (h ▸ hd) (by decide)
  have hbeq : (('-' : Char) == d) = false := by
    simp only [beq_eq_false_iff_ne, ne_eq]
    exact fun h => hd2 h.symm
  have hbul : (str "- ").isPrefixOf (trimStr line) = false := by
    rw [htrim, List.cons_append]
    simp [str, List.isPrefixOf, hbeq]
  have htw : (trimStr line).takeWhile Char.isDigit = d :: ds2 := by
    rw [htrim]
    exact takeWhile_append_sat _ hdig (by decide)
  have hdrop : (trimStr line).drop (d :: ds2).length = '.' :: ' ' :: rest := by
    rw [htrim]
    exact List.drop_left _ _
  have hnum : testNumbered (trimStr line) = true := by
    unfold testNumbered
    rw [htw, hdrop]
    rfl
  have hdrop2 : (trimStr line).drop ((d :: ds2).length + 2) = rest := by
    rw [htrim,
      show (d :: ds2) ++ '.' :: ' ' :: rest = ((d :: ds2) ++ ['.', ' ']) ++ rest by simp,
      show (d :: ds2).length + 2 = ((d :: ds2) ++ ['.', ' ']).length by simp]
    exact List.drop_left _ _
  unfold classifyLine
  simp only [h1, h2, hbul, hnum, Bool.false_eq_true, if_false, if_true, htw]
  rw [hdrop2]

/-- C10: heading classification runs on the raw line while the other
block checks run on the trimmed line, so a line with leading whitespace
before a hash marker is classified as a paragraph by the block renderer
of every template, while the title/body splitter (which trims first)
counts the same line as a title line. -/
theorem claim10_heading_raw_vs_trimmed (c : Char) (t : Str)
    (hws : isWs c = true)
    (hh : (str "# ").isPrefixOf (trimStr (c :: t)) = true
        ∨ (str "## ").isPrefixOf (trimStr (c :: t)) = true) :
    classifyLine (c :: t) = .para (parseInline (c :: t))
    ∧ isTitleLine (c :: t) = true := by
  have hcs : c = ' ' ∨ c = '\t' ∨ c = '\r' ∨ c = '\n' := by
    simpa [isWs, or_assoc] using hws
  obtain ⟨u, hu⟩ : ∃ u, trimStr (c :: t) = '#' :: u := by
    rcases hh with h | h
    · obtain ⟨w, hw⟩ := List.isPrefixOf_iff_prefix.mp h
      exact ⟨' ' :: w, by rw [← hw]; rfl⟩
    · obtain ⟨w, hw⟩ := List.isPrefixOf_iff_prefix.mp h
      exact ⟨'#' :: ' ' :: w, by rw [← hw]; rfl⟩
  have hc : (('#' : Char) == c) = false := by
    rcases hcs with rfl | rfl | rfl | rfl <;> decide
  have h1 : (str "# ").isPrefixOf (c :: t) = false := by
    simp [str, List.isPrefixOf, hc]
  have h2 : (str "## ").isPrefixOf (c :: t) = false := by
    simp [str, List.isPrefixOf, hc]
  have hbul : (str "- ").isPrefixOf (trimStr (c :: t)) = false := by
    rw [hu]
    simp [str, List.isPrefixOf]
  have hnum : testNumbered (trimStr (c :: t)) = false := by
    rw [hu]
    unfold testNumbered
    rw [List.takeWhile_cons, if_neg (by decide)]
  have hemp : (trimStr (c :: t)).isEmpty = false := by
    rw [hu]; rfl
  constructor
  · unfold classifyLine
    simp only [h1, h2, hbul, hnum, hemp, Bool.false_eq_true, if_false]
  · unfold isTitleLine
    rcases hh with h | h <;> simp [h]

/-- C7 witness: the line of the spec's example resolves to a numbered
item displaying the verbatim number five. -/
theorem claim7_witness :
    classifyLine (str "5. Fifth item") = .numbered (str "5") (parseInline (str "Fifth item")) :=
  claim7_numbered_verbatim (str "5. Fifth item") (str "5") (str "Fifth item")
    (by decide) (by decide) (by decide)

/-- C10 witness: a heading marker preceded by two spaces renders as a
paragraph yet counts as a title line for the splitter. -/
theorem claim10_witness :
    classifyLine (' ' :: str " # X") = .para (parseInline (' ' :: str " # X"))
    ∧ isTitleLine (' ' :: str " # X") = true :=
  claim10_heading_raw_vs_trimmed ' ' (str " # X") (by decide) (Or.inl (by decide))

/-! ## Claims about the settings resolver and the templates -/

/-- Fixture slide carrying a per-slide content padding override of 40. -/
def exSlideOverride : Slide :=
  { type := .CONTENT, content := [], showImage := false, contentPadding := some 40 }

/-- Fixture slide with no layout overrides. -/
def exSlidePlain : Slide := { type := .CONTENT, content := [], showImage := false }

/-- Fixture global layout settings with content padding 80. -/
def exGlobal : LayoutSettings :=
  { contentPadding := 80, imageCanvasOffset := 0, imageMargin := 0
    textLineHeight := 1.5, paragraphGap := 1 }

/-- C1: every tunable layout parameter resolves per-slide override first,
then the global setting, then the hard default (content padding 64, line
height 1.5, paragraph gap 1, alignment left, font style modern, font
scale 1, image scale 50 for feed-text and lesson and 45 for cinematic;
a present image-scale override wins whenever it is non-zero, zero being
falsy for the JavaScript or-fallback).  The final three conjuncts are the
spec's concrete content-padding examples. -/
theorem claim1_override_cascade (s : Slide) (L : LayoutSettings)
    (gFS : FontStyle) (gSc : ℚ) :
    (∀ v, s.contentPadding = some v →
        effContentPadding s (some L) = v ∧ effContentPadding s none = v)
    ∧ (s.contentPadding = none →
        effContentPadding s (some L) = L.contentPadding ∧ effContentPadding s none = 64)
    ∧ (∀ v, s.textLineHeight = some v →
        effLineHeight s (some L) = v ∧ effLineHeight s none = v)
    ∧ (s.textLineHeight = none →
        effLineHeight s (some L) = L.textLineHeight ∧ effLineHeight s none = 1.5)
    ∧ (∀ v, s.paragraphGap = some v →
        effParagraphGap s (some L) = v ∧ effParagraphGap s none = v)
    ∧ (s.paragraphGap = none →
        effParagraphGap s (some L) = L.paragraphGap ∧ effParagraphGap s none = 1)
    ∧ (∀ a, s.textAlignment = some a →
        effTextAlignment s (some L) = a ∧ effTextAlignment s none = a)
    ∧ (s.textAlignment = none →
        (∀ a, L.textAlignment = some a → effTextAlignment s (some L) = a)
        ∧ (L.textAlignment = none → effTextAlignment s (some L) = .left)
        ∧ effTextAlignment s none = .left)
    ∧ (∀ f, s.fontStyle = some f → effFontStyle s gFS = f)
    ∧ (s.fontStyle = none → effFontStyle s gFS = gFS)
    ∧ (∀ v, s.fontScale = some v → effFontScale s gSc = v)
    ∧ (s.fontScale = none → effFontScale s gSc = gSc ∧ effFontScale s 1 = 1)
    ∧ (∀ v, s.imageScale = some v → v ≠ 0 →
        effImageScaleTwitter s = v ∧ effImageScaleStoryteller s = v
          ∧ effImageScaleLesson s = v)
    ∧ (s.imageScale = none →
        effImageScaleTwitter s = 50 ∧ effImageScaleStoryteller s = 45
          ∧ effImageScaleLesson s = 50)
    ∧ effContentPadding exSlideOverride (some exGlobal) = 40
    ∧ effContentPadding exSlidePlain (some exGlobal) = 80
    ∧ effContentPadding exSlidePlain none = 64 := by
  refine ⟨fun v h => ?_, fun h => ?_, fun v h => ?_, fun h => ?_, fun v h => ?_,
    fun h => ?_, fun a h => ?_, fun h => ?_, fun f h => ?_, fun h => ?_,
    fun v h => ?_, fun h => ?_, fun v h hv => ?_, fun h => ?_, ?_, ?_, ?_⟩
  · exact ⟨by simp [effContentPadding, h], by simp [effContentPadding, h]⟩
  · exact ⟨by simp [effContentPadding, h], by simp [effContentPadding, h]⟩
  · exact ⟨by simp [effLineHeight, h], by simp [effLineHeight, h]⟩
  · exact ⟨by simp [effLineHeight, h], by simp [effLineHeight, h]⟩
  · exact ⟨by simp [effParagraphGap, h], by simp [effParagraphGap, h]⟩
  · exact ⟨by simp [effParagraphGap, h], by simp [effParagraphGap, h]⟩
  · exact ⟨by simp [effTextAlignment, h], by simp [effTextAlignment, h]⟩
  · exact ⟨fun a ha => by simp [effTextAlignment, h, ha],
      fun ha => by simp [effTextAlignment, h, ha],
      by simp [effTextAlignment, h]⟩
  · simp [effFontStyle, h]
  · simp [effFontStyle, h]
  · simp [effFontScale, h]
  · exact ⟨by simp [effFontScale, h], by simp [effFontScale, h]⟩
  · exact ⟨by simp [effImageScaleTwitter, jsOrQ, h, hv],
      by simp [effImageScaleStoryteller, jsOrQ, h, hv],
      by simp [effImageScaleLesson, jsOrQ, h, hv]⟩
  · exact ⟨by simp [effImageScaleTwitter, jsOrQ, h],
      by simp [effImageScaleStoryteller, jsOrQ, h],
      by simp [effImageScaleLesson, jsOrQ, h]⟩
  · rfl
  · rfl
  · rfl

/-- C1 witness: the cascade at the fixture slides, with the hypotheses
discharged on concrete inputs. -/
theorem claim1_witness :
    effContentPadding exSlideOverride (some exGlobal) = 40
    ∧ effContentPadding exSlidePlain (some exGlobal) = 80 := by
  refine ⟨(claim1_override_cascade exSlideOverride exGlobal .MODERN 1).1 40 rfl |>.1, ?_⟩
  exact ((claim1_override_cascade exSlidePlain exGlobal .MODERN 1).2.1 rfl).1

/-- Fixture slide showing both an illustration and a background image. -/
def exSlideFull : Slide :=
  { type := .CONTENT, content := str "# T\nbody", showImage := true
    imageUrl := some (str "img.png"), showBackgroundImage := some true
    backgroundImageUrl := some (str "bg.png") }

/-- C2 counterexample: in the feed-text template with the default content
layout, background and illustration both present, the illustration is
painted after (above) the text inside the content layer, so the claimed
background-overlay-illustration-text-footer chain does not hold. -/
theorem claim2_counterexample :
    zOrderOK requiresBelowSpec (twitterLayers exSlideFull none .MODERN 1 true false .DARK)
      = false := by decide

/-- C2 amended: for every template and every slide, the background layer
is below the color overlay, both are below every illustration, text and
footer layer, and the footer is above every other layer; the
illustration-below-text comparison holds in the cinematic template but
not in general (the feed-text default layout paints text before the
image inside one content layer). -/
theorem claim2_zorder_amended (s : Slide) (ls : Option LayoutSettings)
    (gFS : FontStyle) (gSc : ℚ) (ssn fe : Bool) (th : Theme) :
    zOrderOK requiresBelowAmended (twitterLayers s ls gFS gSc ssn fe th) = true
    ∧ zOrderOK requiresBelowAmended (storytellerLayers s ls gFS gSc ssn fe th) = true
    ∧ zOrderOK requiresBelowAmended (lessonLayers s ls gFS gSc ssn fe th) = true := by
  refine ⟨?_, ?_, ?_⟩
  · simp only [twitterLayers, twitterMainContent, twitterRenderImage, backgroundLayers,
      textLayerBase]
    by_cases c1 : twitterContentLayout s = str "image-first"
    · rw [if_pos c1]
      cases hbg : showBackgroundOf s <;> cases hsi : s.showImage <;> cases ssn <;> rfl
    · rw [if_neg c1]
      by_cases c2 : twitterContentLayout s = str "image-after-title"
      · rw [if_pos c2]
        cases hbg : showBackgroundOf s <;> cases hsi : s.showImage <;>
          cases ht1 : (trimStr (twitterTitleBody s).titleLines).isEmpty <;>
          cases ht2 : (trimStr (twitterTitleBody s).bodyLines).isEmpty <;>
          cases ssn <;> rfl
      · rw [if_neg c2]
        cases hbg : showBackgroundOf s <;> cases hsi : s.showImage <;> cases ssn <;> rfl
  · simp only [storytellerLayers, backgroundLayers, textLayerBase]
    cases hbg : showBackgroundOf s <;>
      cases hov : storytellerIsOverlay s && truthyS s.imageUrl <;>
      cases hsp : storytellerShowSplit s && truthyS s.imageUrl <;> rfl
  · simp only [lessonLayers, backgroundLayers, textLayerBase]
    cases hcov : lessonIsCover s
    · cases hbg : showBackgroundOf s <;> cases hsi : s.showImage <;>
        cases ht1 : (trimStr (lessonTitleBody s).titleLines).isEmpty <;>
        cases ht2 : (trimStr (lessonTitleBody s).bodyLines).isEmpty <;> rfl
    · cases hovm : lessonIsOverlayMode s <;> cases hsci : lessonShowCoverImage s <;> rfl

/-- The storyteller illustration is below the text and the gradient is
part of the cinematic illustration block: the spec's full chain holds for
the cinematic-image template. -/
theorem storyteller_full_chain (s : Slide) (ls : Option LayoutSettings)
    (gFS : FontStyle) (gSc : ℚ) (ssn fe : Bool) (th : Theme) :
    zOrderOK requiresBelowSpec (storytellerLayers s ls gFS gSc ssn fe th) = true := by
  simp only [storytellerLayers, backgroundLayers, textLayerBase]
  cases hbg : showBackgroundOf s <;>
    cases hov : storytellerIsOverlay s && truthyS s.imageUrl <;>
    cases hsp : storytellerShowSplit s && truthyS s.imageUrl <;> rfl

/-- Strip the transition flag of a layer. -/
def eraseTransition (l : Layer) : Layer := { l with transition := false }

/-- C4: for every template and slide, rendering for export and rendering
for preview produce identical layers except for the transition-animation
flag: geometry, z-order and color resolution are unchanged. -/
theorem claim4_export_parity (s : Slide) (ls : Option LayoutSettings)
    (gFS : FontStyle) (gSc : ℚ) (ssn : Bool) (th : Theme) :
    (twitterLayers s ls gFS gSc ssn true th).map eraseTransition
      = (twitterLayers s ls gFS gSc ssn false th).map eraseTransition
    ∧ (storytellerLayers s ls gFS gSc ssn true th).map eraseTransition
      = (storytellerLayers s ls gFS gSc ssn false th).map eraseTransition
    ∧ (lessonLayers s ls gFS gSc ssn true th).map eraseTransition
      = (lessonLayers s ls gFS gSc ssn false th).map eraseTransition := by
  refine ⟨?_, ?_, ?_⟩
  · simp only [twitterLayers, twitterMainContent, twitterRenderImage, backgroundLayers,
      textLayerBase]
    by_cases c1 : twitterContentLayout s = str "image-first"
    · rw [if_pos c1]
      cases hbg : showBackgroundOf s <;> cases hsi : s.showImage <;> cases ssn <;> rfl
    · rw [if_neg c1]
      by_cases c2 : twitterContentLayout s = str "image-after-title"
      · rw [if_pos c2]
        cases hbg : showBackgroundOf s <;> cases hsi : s.showImage <;>
          cases ht1 : (trimStr (twitterTitleBody s).titleLines).isEmpty <;>
          cases ht2 : (trimStr (twitterTitleBody s).bodyLines).isEmpty <;>
          cases ssn <;> rfl
      · rw [if_neg c2]
        cases hbg : showBackgroundOf s <;> cases hsi : s.showImage <;> cases ssn <;> rfl
  · simp only [storytellerLayers, backgroundLayers, textLayerBase]
    cases hbg : showBackgroundOf s <;>
      cases hov : storytellerIsOverlay s && truthyS s.imageUrl <;>
      cases hsp : storytellerShowSplit s && truthyS s.imageUrl <;> rfl
  · simp only [lessonLayers, backgroundLayers, textLayerBase]
    cases hcov : lessonIsCover s
    · cases hbg : showBackgroundOf s <;> cases hsi : s.showImage <;>
        cases ht1 : (trimStr (lessonTitleBody s).titleLines).isEmpty <;>
        cases ht2 : (trimStr (lessonTitleBody s).bodyLines).isEmpty <;> rfl
    · cases hovm : lessonIsOverlayMode s <;> cases hsci : lessonShowCoverImage s <;> rfl

/-- A positive jsOr fallback of positive inputs stays positive. -/
theorem jsOrQ_pos {o : Option ℚ} {d : ℚ} (ho : ∀ v, o = some v → 0 < v)
    (hd : 0 < d) : 0 < jsOrQ o d := by
  unfold jsOrQ
  cases o with
  | none => exact hd
  | some v =>
    show 0 < if v = 0 then d else v
    by_cases hv : v = 0
    · rw [if_pos hv]; exact hd
    · rw [if_neg hv]; exact ho v rfl

/-- An illustration layer holding the generating placeholder with a
positive percentage height is present. -/
def placeholderIllustration (L : List Layer) : Bool :=
  L.any fun l =>
    l.kind == .illustration && l.content == .placeholderGenerating &&
      (match l.heightPct with
       | some q => decide (0 < q)
       | none => false)

/-- C3 counterexample: the cinematic-image template emits no illustration
layer at all when showImage is on but the image URL is absent, so the
claimed always-present placeholder fails for that template. -/
theorem claim3_counterexample :
    ((storytellerLayers { exSlideFull with imageUrl := none } none .MODERN 1 true false .DARK).any
        fun l => l.kind == .illustration) = false := by decide

/-- C3 amended: with showImage on and no image URL, the feed-text
template and non-cover lesson slides emit an illustration layer holding
the generating placeholder with positive height (image scale within its
documented positive range), while the cinematic-image template emits no
illustration layer at all. -/
theorem claim3_placeholder_amended (s : Slide) (ls : Option LayoutSettings)
    (gFS : FontStyle) (gSc : ℚ) (ssn fe : Bool) (th : Theme)
    (hshow : s.showImage = true) (hurl : s.imageUrl = none)
    (hscale : ∀ v, s.imageScale = some v → 0 < v) :
    placeholderIllustration (twitterLayers s ls gFS gSc ssn fe th) = true
    ∧ (s.type ≠ SlideType.COVER →
        placeholderIllustration (lessonLayers s ls gFS gSc ssn fe th) = true)
    ∧ ((storytellerLayers s ls gFS gSc ssn fe th).all
         fun l => !(l.kind == .illustration)) = true := by
  have hposT : 0 < effImageScaleTwitter s := jsOrQ_pos hscale (by norm_num)
  have hposL : 0 < effImageScaleLesson s := jsOrQ_pos hscale (by norm_num)
  have hposT2 : decide (0 < effImageScaleTwitter s) = true := decide_eq_true hposT
  have hposL2 : decide (0 < effImageScaleLesson s) = true := decide_eq_true hposL
  refine ⟨?_, fun hcov => ?_, ?_⟩
  · simp only [placeholderIllustration, twitterLayers, twitterMainContent,
      twitterRenderImage, List.any_append]
    by_cases c1 : twitterContentLayout s = str "image-first"
    · rw [if_pos c1]
      simp [hshow, hurl, truthyS, hposT2]
    · rw [if_neg c1]
      by_cases c2 : twitterContentLayout s = str "image-after-title"
      · rw [if_pos c2]
        simp [hshow, hurl, truthyS, hposT2]
      · rw [if_neg c2]
        simp [hshow, hurl, truthyS, hposT2]
  · have hcb : lessonIsCover s = false := by
      unfold lessonIsCover
      exact beq_eq_false_iff_ne.mpr hcov
    simp only [placeholderIllustration, lessonLayers, List.any_append]
    simp [hcb, hshow, hurl, truthyS, hposL2]
  · simp only [storytellerLayers, List.all_append]
    rw [hurl]
    simp only [truthyS, Bool.and_false, Bool.false_eq_true, if_false]
    cases hbg : showBackgroundOf s <;> rfl

/-- C3 witness: a concrete content slide with showImage on and no URL. -/
theorem claim3_witness :
    placeholderIllustration
      (twitterLayers { exSlideFull with imageUrl := none } none .MODERN 1 true false .DARK)
      = true :=
  (claim3_placeholder_amended { exSlideFull with imageUrl := none } none .MODERN 1
    true false .DARK rfl rfl (fun _ h => Option.noConfusion h)).1

/-- C6: composing the feed-text template with an unrecognized
content-layout value yields exactly the default composition (all content,
then image) and always produces a non-empty layer list. -/
theorem claim6_unknown_layout_fallback (s : Slide) (ls : Option LayoutSettings)
    (gFS : FontStyle) (gSc : ℚ) (ssn fe : Bool) (th : Theme) (cl : Str)
    (h1 : cl ≠ str "image-first") (h2 : cl ≠ str "image-after-title") :
    twitterLayers { s with contentLayout := some cl } ls gFS gSc ssn fe th
      = twitterLayers { s with contentLayout := some (str "default") } ls gFS gSc ssn fe th
    ∧ twitterLayers { s with contentLayout := some cl } ls gFS gSc ssn fe th ≠ [] := by
  constructor
  · by_cases hcl : cl = []
    · subst hcl; rfl
    · have hne : cl.isEmpty = false := by
        cases cl with
        | nil => exact absurd rfl hcl
        | cons a b => rfl
      have hccl : twitterContentLayout { s with contentLayout := some cl } = cl := by
        simp [twitterContentLayout, jsOrS, hne]
      have hcdef : twitterContentLayout { s with contentLayout := some (str "default") }
          = str "default" := by
        simp [twitterContentLayout, jsOrS]
      have hmc : twitterMainContent { s with contentLayout := some cl } ls gSc
          = twitterMainContent { s with contentLayout := some (str "default") } ls gSc := by
        unfold twitterMainContent twitterTitleBody
        rw [hccl, hcdef, if_neg h1, if_neg h2,
          if_neg (show ¬(str "default" = str "image-first") by decide),
          if_neg (show ¬(str "default" = str "image-after-title") by decide)]
        rfl
      simp only [twitterLayers, hmc]
      rfl
  · intro hnil
    unfold twitterLayers at hnil
    simp only [List.cons_append] at hnil
    exact List.cons_ne_nil _ _ hnil

/-- C6 witness: a concrete bogus layout value composes like default. -/
theorem claim6_witness :
    twitterLayers { exSlideFull with contentLayout := some (str "banana") } none
        .MODERN 1 true false .DARK
      = twitterLayers { exSlideFull with contentLayout := some (str "default") } none
        .MODERN 1 true false .DARK :=
  (claim6_unknown_layout_fallback exSlideFull none .MODERN 1 true false .DARK
    (str "banana") (by decide) (by decide)).1

end Carousel
